import Mathlib

/-!
Verification of `src/hydrogen_cost_model.py` (extended hydrogen supply cost model).

The Python source is a pure function over hourly arrays.  We embed it shallowly:
hourly series become `List ℚ`, scalars become `ℚ`, and each intermediate array
of the source becomes a Lean definition carrying the source variable's name.
`jnp.clip(v, lo, hi)` is `min (max v lo) hi`; `jax.lax.scan` over the clip body
is an explicit sequential recursion; `jnp.roll(x, 1)` (element `i` comes from
index `(i - 1) mod n`) is `List.rotate x (x.length - 1)` and `jnp.roll(x, -1)`
is `List.rotate x 1`.  Division is Lean's total division on `ℚ` (with `q / 0 = 0`),
so the two division-by-zero sites of the source are analysed through explicit
theorems about their denominators rather than through IEEE infinities/NaNs.
-/

namespace HydrogenCostModel

/-- `jnp.clip(v, lo, hi)`, i.e. `jnp.minimum(jnp.maximum(v, lo), hi)`. -/
def clip (v lo hi : ℚ) : ℚ := min (max v lo) hi

/-- The `jax.lax.scan` of `bounded_cumsum`, carrying the clamped running sum:
each step emits `new_sum = clip(sum_so_far + xi, lower_bound, upper_bound)`
and passes it on as the next carry. -/
def bounded_cumsum_go (lo hi : ℚ) : ℚ → List ℚ → List ℚ
  | _, [] => []
  | carry, xi :: rest =>
    clip (carry + xi) lo hi :: bounded_cumsum_go lo hi (clip (carry + xi) lo hi) rest

/-- `bounded_cumsum(x, lower_bound, upper_bound)` from the source: a scan with
initial carry `0.0` whose body clips the running sum into `[lo, hi]`. -/
def bounded_cumsum (x : List ℚ) (lo hi : ℚ) : List ℚ :=
  bounded_cumsum_go lo hi 0 x

/-- `jnp.roll(x, shift=1)`: element `i` of the result is `x[(i - 1) mod n]`;
as a list operation this is rotation to the left by `n - 1`. -/
def roll_one (l : List ℚ) : List ℚ := l.rotate (l.length - 1)

/-- `jnp.roll(x, shift=-1)`: element `i` of the result is `x[(i + 1) mod n]`;
as a list operation this is rotation to the left by `1`. -/
def roll_minus_one (l : List ℚ) : List ℚ := l.rotate 1

/-- Plain (unclamped) running total with the same scan structure as
`bounded_cumsum_go`; used to express that the bounded accumulation never
clamps on a given input. -/
def cumsum_go : ℚ → List ℚ → List ℚ
  | _, [] => []
  | carry, xi :: rest => (carry + xi) :: cumsum_go (carry + xi) rest

/-- Unclamped cumulative sum (same initial carry `0` as `bounded_cumsum`). -/
def cumsum (x : List ℚ) : List ℚ := cumsum_go 0 x

/-! ### Constants of the source (lines 14-27) -/

def electrolyzer_capital_cost__usd_per_kw : ℚ := 1500

def electrolyzer_efficiency__fraction : ℚ := 6 / 10

def electrolyzer_lifetime__years : ℚ := 20

def hydrogen_higher_heating_value__kwh_per_kg : ℚ := 3939 / 100

def h2_deficit_penalty_factor : ℚ := 10

def h2_storage_capital_cost__usd_per_kg : ℚ := 600

def h2_storage_level_start__fraction : ℚ := 1 / 2

/-- `h2_storage_capacity__kg = h2_storage_capacity__t * 1000.` -/
def h2_storage_capacity__kg (cap : ℚ) : ℚ := cap * 1000

/-- `electrolyzer_size__kw = electrolyzer_size__mw * 1000.` -/
def electrolyzer_size__kw (size : ℚ) : ℚ := size * 1000

/-! ### The body of `hydrogen_supply_cost`, one definition per source variable.
Parameters: `demand` = `h2_demand__kg_per_hour`, `price` =
`electricity_price__usd_per_kwh`, `size` = `electrolyzer_size__mw`,
`cf` = `electrolyzer_capacity_factor__fraction`, `cap` = `h2_storage_capacity__t`. -/

def total_electrolyzer_capital_cost__usd (size : ℚ) : ℚ :=
  electrolyzer_size__kw size * electrolyzer_capital_cost__usd_per_kw

def electricity_consumption__kwh_per_hour (size : ℚ) (cf : List ℚ) : List ℚ :=
  cf.map (fun c => electrolyzer_size__kw size * c)

def h2_production__kg_per_hour (size : ℚ) (cf : List ℚ) : List ℚ :=
  (electricity_consumption__kwh_per_hour size cf).map
    (fun e => e * electrolyzer_efficiency__fraction / hydrogen_higher_heating_value__kwh_per_kg)

def total_h2_storage_capital_cost__usd (cap : ℚ) : ℚ :=
  h2_storage_capacity__kg cap * h2_storage_capital_cost__usd_per_kg

def h2_storage_lower_bound (cap : ℚ) : ℚ :=
  -1 * h2_storage_capacity__kg cap * h2_storage_level_start__fraction

def h2_storage_upper_bound (cap : ℚ) : ℚ :=
  h2_storage_capacity__kg cap * (1 - h2_storage_level_start__fraction)

def h2_demand_supply_balance__kg_per_hour (demand : List ℚ) (size : ℚ) (cf : List ℚ) : List ℚ :=
  List.zipWith (fun p d => p - d) (h2_production__kg_per_hour size cf) demand

def h2_demand_supply_balance_shifted__kg_per_hour (demand : List ℚ) (size : ℚ)
    (cf : List ℚ) : List ℚ :=
  roll_one (h2_demand_supply_balance__kg_per_hour demand size cf)

def h2_relative_storage_level__kg (demand : List ℚ) (size : ℚ) (cf : List ℚ) (cap : ℚ) :
    List ℚ :=
  bounded_cumsum (h2_demand_supply_balance_shifted__kg_per_hour demand size cf)
    (h2_storage_lower_bound cap) (h2_storage_upper_bound cap)

def h2_absolute_storage_level__kg (demand : List ℚ) (size : ℚ) (cf : List ℚ) (cap : ℚ) :
    List ℚ :=
  (h2_relative_storage_level__kg demand size cf cap).map
    (fun v => v - h2_storage_lower_bound cap)

def h2_storage_charge_and_discharge__kg_per_hour (demand : List ℚ) (size : ℚ) (cf : List ℚ)
    (cap : ℚ) : List ℚ :=
  List.zipWith (fun a b => a - b)
    (roll_minus_one (h2_absolute_storage_level__kg demand size cf cap))
    (h2_absolute_storage_level__kg demand size cf cap)

def h2_supply__kg_per_hour (demand : List ℚ) (size : ℚ) (cf : List ℚ) (cap : ℚ) : List ℚ :=
  List.zipWith min demand
    (List.zipWith (fun p c => p - c) (h2_production__kg_per_hour size cf)
      (h2_storage_charge_and_discharge__kg_per_hour demand size cf cap))

def h2_deficit__kg_per_hour (demand : List ℚ) (size : ℚ) (cf : List ℚ) (cap : ℚ) : List ℚ :=
  (List.zipWith (fun b c => b - c) (h2_demand_supply_balance__kg_per_hour demand size cf)
    (h2_storage_charge_and_discharge__kg_per_hour demand size cf cap)).map
    (fun v => min v 0)

def h2_surplus__kg_per_hour (demand : List ℚ) (size : ℚ) (cf : List ℚ) (cap : ℚ) : List ℚ :=
  (List.zipWith (fun b c => b - c) (h2_demand_supply_balance__kg_per_hour demand size cf)
    (h2_storage_charge_and_discharge__kg_per_hour demand size cf cap)).map
    (fun v => max v 0)

def annual_h2_demand__kg_per_year (demand : List ℚ) : ℚ := demand.sum

def annual_h2_deficit__kg_per_year (demand : List ℚ) (size : ℚ) (cf : List ℚ) (cap : ℚ) : ℚ :=
  (h2_deficit__kg_per_hour demand size cf cap).sum

/-- `annual_h2_deficit__ratio = -annual_h2_deficit__kg_per_year / annual_h2_demand__kg_per_year`.
In the source this is IEEE division (yielding NaN on 0/0); here it is total
division on `ℚ`. -/
def annual_h2_deficit_ratio (demand : List ℚ) (size : ℚ) (cf : List ℚ) (cap : ℚ) : ℚ :=
  -annual_h2_deficit__kg_per_year demand size cf cap / annual_h2_demand__kg_per_year demand

def annual_h2_supply__kg (demand : List ℚ) (size : ℚ) (cf : List ℚ) (cap : ℚ) : ℚ :=
  (h2_supply__kg_per_hour demand size cf cap).sum

def h2_production_electricity_cost__usd_per_hour (price : List ℚ) (size : ℚ)
    (cf : List ℚ) : List ℚ :=
  List.zipWith (fun e p => e * p) (electricity_consumption__kwh_per_hour size cf) price

def annual_h2_production_electricity_cost__usd_per_year (price : List ℚ) (size : ℚ)
    (cf : List ℚ) : ℚ :=
  (h2_production_electricity_cost__usd_per_hour price size cf).sum

def total_costs__usd (price : List ℚ) (size : ℚ) (cf : List ℚ) (cap : ℚ) : ℚ :=
  total_electrolyzer_capital_cost__usd size
    + annual_h2_production_electricity_cost__usd_per_year price size cf
      * electrolyzer_lifetime__years
    + total_h2_storage_capital_cost__usd cap

def total_h2_supply__kg (demand : List ℚ) (size : ℚ) (cf : List ℚ) (cap : ℚ) : ℚ :=
  annual_h2_supply__kg demand size cf cap * electrolyzer_lifetime__years

/-- `lcoh__usd_per_kg = total_costs__usd / total_h2_supply__kg`.  In the source
this is IEEE division (yielding inf on x/0, x > 0); here it is total division
on `ℚ`. -/
def lcoh__usd_per_kg (demand price : List ℚ) (size : ℚ) (cf : List ℚ) (cap : ℚ) : ℚ :=
  total_costs__usd price size cf cap / total_h2_supply__kg demand size cf cap

def lcoh_with_deficit_penalty__usd_per_kg (demand price : List ℚ) (size : ℚ) (cf : List ℚ)
    (cap : ℚ) : ℚ :=
  lcoh__usd_per_kg demand price size cf cap
    * (1 + annual_h2_deficit_ratio demand size cf cap * h2_deficit_penalty_factor)

/-- The full return tuple of `hydrogen_supply_cost`. -/
def hydrogen_supply_cost (demand price : List ℚ) (size : ℚ) (cf : List ℚ) (cap : ℚ) :
    ℚ × List ℚ × ℚ × List ℚ × List ℚ × List ℚ × List ℚ :=
  (lcoh_with_deficit_penalty__usd_per_kg demand price size cf cap,
   h2_absolute_storage_level__kg demand size cf cap,
   annual_h2_deficit_ratio demand size cf cap,
   h2_deficit__kg_per_hour demand size cf cap,
   h2_surplus__kg_per_hour demand size cf cap,
   h2_production__kg_per_hour size cf,
   h2_storage_charge_and_discharge__kg_per_hour demand size cf cap)

/-! ### Helper lemmas -/

theorem clip_le_upper (v lo hi : ℚ) : clip v lo hi ≤ hi := min_le_right _ _

theorem lower_le_clip (v lo hi : ℚ) (h : lo ≤ hi) : lo ≤ clip v lo hi :=
  le_min (le_max_right _ _) h

/-- When the bounds are ordered, `jnp.clip` agrees with the spec's
`clamp(v, lo, hi) = max(lo, min(hi, v))`. -/
theorem clip_eq_clamp (v lo hi : ℚ) (h : lo ≤ hi) : clip v lo hi = max lo (min hi v) := by
  rw [clip, max_min_distrib_left, max_eq_right h, min_comm, max_comm]

theorem length_bounded_cumsum_go (lo hi : ℚ) (x : List ℚ) :
    ∀ c : ℚ, (bounded_cumsum_go lo hi c x).length = x.length := by
  induction x with
  | nil => intro c; rfl
  | cons xi rest ih => intro c; simp [bounded_cumsum_go, ih]

theorem length_bounded_cumsum (x : List ℚ) (lo hi : ℚ) :
    (bounded_cumsum x lo hi).length = x.length :=
  length_bounded_cumsum_go lo hi x 0

theorem bounded_cumsum_go_getD_succ (lo hi : ℚ) (x : List ℚ) :
    ∀ (c : ℚ) (i : ℕ), i + 1 < x.length →
      (bounded_cumsum_go lo hi c x).getD (i + 1) 0 =
        clip ((bounded_cumsum_go lo hi c x).getD i 0 + x.getD (i + 1) 0) lo hi := by
  induction x with
  | nil => intro c i h; simp at h
  | cons xi rest ih =>
    intro c i h
    cases i with
    | zero =>
      cases rest with
      | nil => simp at h
      | cons y ys => simp [bounded_cumsum_go]
    | succ j =>
      simp only [bounded_cumsum_go, List.getD_cons_succ]
      exact ih _ j (by simpa using h)

theorem bounded_cumsum_go_mem (lo hi : ℚ) (h : lo ≤ hi) (x : List ℚ) :
    ∀ (c y : ℚ), y ∈ bounded_cumsum_go lo hi c x → lo ≤ y ∧ y ≤ hi := by
  induction x with
  | nil => intro c y hy; simp [bounded_cumsum_go] at hy
  | cons xi rest ih =>
    intro c y hy
    rw [bounded_cumsum_go, List.mem_cons] at hy
    rcases hy with rfl | hy
    · exact ⟨lower_le_clip _ _ _ h, clip_le_upper _ _ _⟩
    · exact ih _ y hy

theorem length_cumsum_go (x : List ℚ) : ∀ c : ℚ, (cumsum_go c x).length = x.length := by
  induction x with
  | nil => intro c; rfl
  | cons xi rest ih => intro c; simp [cumsum_go, ih]

theorem cumsum_go_getD (x : List ℚ) : ∀ (c : ℚ) (i : ℕ), i < x.length →
    (cumsum_go c x).getD i 0 = c + (x.take (i + 1)).sum := by
  induction x with
  | nil => intro c i h; simp at h
  | cons xi rest ih =>
    intro c i h
    cases i with
    | zero => simp [cumsum_go]
    | succ j =>
      simp only [cumsum_go, List.getD_cons_succ, List.take_succ_cons, List.sum_cons]
      rw [ih (c + xi) j (by simpa using h)]
      ring

theorem getD_map_of_lt (f : ℚ → ℚ) (l : List ℚ) (i : ℕ) (h : i < l.length) :
    (l.map f).getD i 0 = f (l.getD i 0) := by
  induction l generalizing i with
  | nil => simp at h
  | cons a t ih =>
    cases i with
    | zero => rfl
    | succ j => simpa using ih j (by simpa using h)

theorem getD_zipWith_of_lt (f : ℚ → ℚ → ℚ) (a b : List ℚ) (i : ℕ)
    (ha : i < a.length) (hb : i < b.length) :
    (List.zipWith f a b).getD i 0 = f (a.getD i 0) (b.getD i 0) := by
  induction a generalizing b i with
  | nil => simp at ha
  | cons x t ih =>
    cases b with
    | nil => simp at hb
    | cons y u =>
      cases i with
      | zero => rfl
      | succ j => simpa using ih u j (by simpa using ha) (by simpa using hb)

theorem getD_rotate (l : List ℚ) (n i : ℕ) (h : i < l.length) :
    (l.rotate n).getD i 0 = l.getD ((i + n) % l.length) 0 := by
  have h1 : i < (l.rotate n).length := by simpa using h
  have h2 : (i + n) % l.length < l.length := Nat.mod_lt _ (by omega)
  rw [List.getD_eq_getElem _ _ h1, List.getElem_rotate l n i h1, List.getD_eq_getElem _ _ h2]

theorem sum_zipWith_sub (a b : List ℚ) (h : a.length = b.length) :
    (List.zipWith (fun x y => x - y) a b).sum = a.sum - b.sum := by
  induction a generalizing b with
  | nil => cases b with
    | nil => simp
    | cons y u => simp at h
  | cons x t ih =>
    cases b with
    | nil => simp at h
    | cons y u =>
      rw [List.zipWith_cons_cons, List.sum_cons, List.sum_cons, List.sum_cons,
        ih u (by simpa using h)]
      ring

/-- `min(d, p - c) = d + min((p - d) - c, 0)`: the algebra behind the relation
between realized supply and deficit. -/
theorem min_split (d p c : ℚ) : min d (p - c) = d + min (p - d - c) 0 := by
  rcases le_total d (p - c) with h | h
  · rw [min_eq_left h, min_eq_right (by linarith), add_zero]
  · rw [min_eq_right h, min_eq_left (by linarith)]
    ring

/-! ### Length bookkeeping for the derived series -/

theorem length_production (size : ℚ) (cf : List ℚ) :
    (h2_production__kg_per_hour size cf).length = cf.length := by
  simp [h2_production__kg_per_hour, electricity_consumption__kwh_per_hour]

theorem length_balance (demand : List ℚ) (size : ℚ) (cf : List ℚ)
    (h : cf.length = demand.length) :
    (h2_demand_supply_balance__kg_per_hour demand size cf).length = demand.length := by
  simp [h2_demand_supply_balance__kg_per_hour, length_production, h]

theorem length_shifted (demand : List ℚ) (size : ℚ) (cf : List ℚ)
    (h : cf.length = demand.length) :
    (h2_demand_supply_balance_shifted__kg_per_hour demand size cf).length = demand.length := by
  simp [h2_demand_supply_balance_shifted__kg_per_hour, roll_one, length_balance demand size cf h]

theorem length_relative (demand : List ℚ) (size : ℚ) (cf : List ℚ) (cap : ℚ)
    (h : cf.length = demand.length) :
    (h2_relative_storage_level__kg demand size cf cap).length = demand.length := by
  rw [h2_relative_storage_level__kg, length_bounded_cumsum, length_shifted demand size cf h]

theorem length_absolute (demand : List ℚ) (size : ℚ) (cf : List ℚ) (cap : ℚ)
    (h : cf.length = demand.length) :
    (h2_absolute_storage_level__kg demand size cf cap).length = demand.length := by
  rw [h2_absolute_storage_level__kg, List.length_map, length_relative demand size cf cap h]

theorem length_chargedis (demand : List ℚ) (size : ℚ) (cf : List ℚ) (cap : ℚ)
    (h : cf.length = demand.length) :
    (h2_storage_charge_and_discharge__kg_per_hour demand size cf cap).length =
      demand.length := by
  rw [h2_storage_charge_and_discharge__kg_per_hour, List.length_zipWith]
  simp [roll_minus_one, length_absolute demand size cf cap h]

theorem length_deficit (demand : List ℚ) (size : ℚ) (cf : List ℚ) (cap : ℚ)
    (h : cf.length = demand.length) :
    (h2_deficit__kg_per_hour demand size cf cap).length = demand.length := by
  rw [h2_deficit__kg_per_hour, List.length_map, List.length_zipWith,
    length_balance demand size cf h, length_chargedis demand size cf cap h, min_self]

/-- The charge/discharge series is the forward difference of the absolute
storage level, circularly wrapped: entry `i` is
`abs[(i+1) mod n] - abs[i]`. -/
theorem chargedis_getD (demand : List ℚ) (size : ℚ) (cf : List ℚ) (cap : ℚ) (i : ℕ)
    (h : i < (h2_absolute_storage_level__kg demand size cf cap).length) :
    (h2_storage_charge_and_discharge__kg_per_hour demand size cf cap).getD i 0 =
      (h2_absolute_storage_level__kg demand size cf cap).getD
        ((i + 1) % (h2_absolute_storage_level__kg demand size cf cap).length) 0
      - (h2_absolute_storage_level__kg demand size cf cap).getD i 0 := by
  have h1 : i < (roll_minus_one (h2_absolute_storage_level__kg demand size cf cap)).length := by
    simpa [roll_minus_one] using h
  rw [h2_storage_charge_and_discharge__kg_per_hour,
    getD_zipWith_of_lt _ _ _ i h1 h, roll_minus_one, getD_rotate _ _ _ h]

/-! ### Claim theorems -/

/-- C1: for bounds `lower ≤ upper`, `bounded_cumsum` returns a sequence of the
same length as its input with `y[0] = clamp(0 + x[0], lower, upper)` and
`y[i] = clamp(y[i-1] + x[i], lower, upper)` for `i ≥ 1`, where
`clamp(v, lo, hi) = max(lo, min(hi, v))`. -/
theorem c1_bounded_cumsum_spec (x : List ℚ) (lo hi : ℚ) (h : lo ≤ hi) :
    (bounded_cumsum x lo hi).length = x.length ∧
    (0 < x.length →
      (bounded_cumsum x lo hi).getD 0 0 = max lo (min hi (0 + x.getD 0 0))) ∧
    ∀ i, 1 ≤ i → i < x.length →
      (bounded_cumsum x lo hi).getD i 0 =
        max lo (min hi ((bounded_cumsum x lo hi).getD (i - 1) 0 + x.getD i 0)) := by
  refine ⟨length_bounded_cumsum x lo hi, ?_, ?_⟩
  · intro hx
    cases x with
    | nil => simp at hx
    | cons xi rest =>
      rw [← clip_eq_clamp _ _ _ h]
      rfl
  · intro i h1 h2
    obtain ⟨j, rfl⟩ : ∃ j, i = j + 1 := ⟨i - 1, by omega⟩
    rw [← clip_eq_clamp _ _ _ h]
    simpa using bounded_cumsum_go_getD_succ lo hi x 0 j h2

theorem c1_witness :
    ((-10 : ℚ) ≤ 10) ∧
    (bounded_cumsum [50, -3] (-10) 10).getD 1 0 =
      max (-10) (min 10
        ((bounded_cumsum [50, -3] (-10) 10).getD 0 0 + ([50, -3] : List ℚ).getD 1 0)) :=
  ⟨by norm_num,
   (c1_bounded_cumsum_spec [50, -3] (-10) 10 (by norm_num)).2.2 1 (by norm_num) (by norm_num)⟩

/-- C2: for storage capacity `cap ≥ 0` (in tons, so `cap * 1000` kg), every
element of the relative storage level lies in
`[-(capacity_kg * 0.5), capacity_kg * 0.5]`, and every element of the absolute
storage level lies in `[0, capacity_kg]`. -/
theorem c2_storage_in_bounds (demand : List ℚ) (size : ℚ) (cf : List ℚ) (cap : ℚ)
    (h : 0 ≤ cap) :
    (∀ v ∈ h2_relative_storage_level__kg demand size cf cap,
        -(cap * 1000 * (1 / 2)) ≤ v ∧ v ≤ cap * 1000 * (1 / 2)) ∧
    (∀ v ∈ h2_absolute_storage_level__kg demand size cf cap,
        0 ≤ v ∧ v ≤ cap * 1000) := by
  have hlo : h2_storage_lower_bound cap = -(cap * 1000 * (1 / 2)) := by
    rw [h2_storage_lower_bound, h2_storage_capacity__kg, h2_storage_level_start__fraction]
    ring
  have hhi : h2_storage_upper_bound cap = cap * 1000 * (1 / 2) := by
    rw [h2_storage_upper_bound, h2_storage_capacity__kg, h2_storage_level_start__fraction]
    ring
  have hle : h2_storage_lower_bound cap ≤ h2_storage_upper_bound cap := by
    rw [hlo, hhi]
    nlinarith
  have hmem : ∀ v ∈ h2_relative_storage_level__kg demand size cf cap,
      h2_storage_lower_bound cap ≤ v ∧ v ≤ h2_storage_upper_bound cap := by
    intro v hv
    exact bounded_cumsum_go_mem _ _ hle _ _ v hv
  constructor
  · intro v hv
    rw [← hlo, ← hhi]
    exact hmem v hv
  · intro v hv
    rw [h2_absolute_storage_level__kg, List.mem_map] at hv
    obtain ⟨w, hw, rfl⟩ := hv
    obtain ⟨hw1, hw2⟩ := hmem w hw
    rw [hlo] at hw1
    rw [hhi] at hw2
    rw [hlo]
    constructor
    · linarith
    · linarith

theorem c2_witness :
    (0 : ℚ) ≤ 1 ∧
    (∀ v ∈ h2_relative_storage_level__kg [1] 1 [1] 1,
        -((1 : ℚ) * 1000 * (1 / 2)) ≤ v ∧ v ≤ (1 : ℚ) * 1000 * (1 / 2)) :=
  ⟨by norm_num, (c2_storage_in_bounds [1] 1 [1] 1 (by norm_num)).1⟩

/-- C3: for equal-length inputs, hourly realized supply never exceeds hourly
demand at any index. -/
theorem c3_supply_le_demand (demand : List ℚ) (size : ℚ) (cf : List ℚ) (cap : ℚ)
    (hlen : cf.length = demand.length) :
    ∀ i, i < demand.length →
      (h2_supply__kg_per_hour demand size cf cap).getD i 0 ≤ demand.getD i 0 := by
  intro i hi
  have hprod : i < (h2_production__kg_per_hour size cf).length := by
    rw [length_production, hlen]
    exact hi
  have hcd : i < (h2_storage_charge_and_discharge__kg_per_hour demand size cf cap).length := by
    rw [length_chargedis demand size cf cap hlen]
    exact hi
  have hinner : i < (List.zipWith (fun p c => p - c) (h2_production__kg_per_hour size cf)
      (h2_storage_charge_and_discharge__kg_per_hour demand size cf cap)).length := by
    rw [List.length_zipWith]
    omega
  rw [h2_supply__kg_per_hour, getD_zipWith_of_lt _ _ _ i hi hinner]
  exact min_le_left _ _

theorem c3_witness :
    ([(1 : ℚ), 0].length = [(5 : ℚ), 7].length) ∧
    (h2_supply__kg_per_hour [5, 7] 1 [1, 0] 2).getD 0 0 ≤ ([5, 7] : List ℚ).getD 0 0 :=
  ⟨rfl, c3_supply_le_demand [5, 7] 1 [1, 0] 2 rfl 0 (by norm_num)⟩

/-- C4: the first component returned by `hydrogen_supply_cost` is
`((electrolyzer capital cost + annual electricity cost * 20 + storage capital
cost) / (annual realized supply * 20)) * (1 + deficit ratio * 10)`. -/
theorem c4_penalized_lcoh_formula (demand price : List ℚ) (size : ℚ) (cf : List ℚ)
    (cap : ℚ) :
    (hydrogen_supply_cost demand price size cf cap).1 =
      ((total_electrolyzer_capital_cost__usd size
          + annual_h2_production_electricity_cost__usd_per_year price size cf * 20
          + total_h2_storage_capital_cost__usd cap)
        / (annual_h2_supply__kg demand size cf cap * 20))
      * (1 + annual_h2_deficit_ratio demand size cf cap * 10) := rfl

/-- C8: the charge/discharge series always sums to zero (the circular wrap
makes every year closed, so the claim's "same starting and ending level"
condition is automatic). -/
theorem c8_chargedis_sums_to_zero (demand : List ℚ) (size : ℚ) (cf : List ℚ) (cap : ℚ) :
    (h2_storage_charge_and_discharge__kg_per_hour demand size cf cap).sum = 0 := by
  rw [h2_storage_charge_and_discharge__kg_per_hour,
    sum_zipWith_sub _ _ (by simp [roll_minus_one]), roll_minus_one,
    (List.rotate_perm _ _).sum_eq, sub_self]

/-- C10: at every index, hourly realized supply equals hourly demand plus the
(non-positive) hourly deficit. -/
theorem c10_supply_eq_demand_add_deficit (demand : List ℚ) (size : ℚ) (cf : List ℚ)
    (cap : ℚ) (hlen : cf.length = demand.length) :
    ∀ i, i < demand.length →
      (h2_supply__kg_per_hour demand size cf cap).getD i 0 =
        demand.getD i 0 + (h2_deficit__kg_per_hour demand size cf cap).getD i 0 := by
  intro i hi
  have hprod : i < (h2_production__kg_per_hour size cf).length := by
    rw [length_production, hlen]
    exact hi
  have hcd : i < (h2_storage_charge_and_discharge__kg_per_hour demand size cf cap).length := by
    rw [length_chargedis demand size cf cap hlen]
    exact hi
  have hbal : i < (h2_demand_supply_balance__kg_per_hour demand size cf).length := by
    rw [length_balance demand size cf hlen]
    exact hi
  have hinner : i < (List.zipWith (fun p c => p - c) (h2_production__kg_per_hour size cf)
      (h2_storage_charge_and_discharge__kg_per_hour demand size cf cap)).length := by
    rw [List.length_zipWith]
    omega
  have hbc : i < (List.zipWith (fun b c => b - c)
      (h2_demand_supply_balance__kg_per_hour demand size cf)
      (h2_storage_charge_and_discharge__kg_per_hour demand size cf cap)).length := by
    rw [List.length_zipWith]
    omega
  rw [h2_supply__kg_per_hour, getD_zipWith_of_lt _ _ _ i hi hinner,
    getD_zipWith_of_lt _ _ _ i hprod hcd, h2_deficit__kg_per_hour,
    getD_map_of_lt _ _ i hbc, getD_zipWith_of_lt _ _ _ i hbal hcd,
    h2_demand_supply_balance__kg_per_hour, getD_zipWith_of_lt _ _ _ i hprod hi]
  exact min_split _ _ _

theorem c10_witness :
    ([(1 : ℚ), 0].length = [(5 : ℚ), 7].length) ∧
    (h2_supply__kg_per_hour [5, 7] 1 [1, 0] 2).getD 1 0 =
      ([5, 7] : List ℚ).getD 1 0 + (h2_deficit__kg_per_hour [5, 7] 1 [1, 0] 2).getD 1 0 :=
  ⟨rfl, c10_supply_eq_demand_add_deficit [5, 7] 1 [1, 0] 2 rfl 1 (by norm_num)⟩

/-- C5: at the input `demand = [0]`, `price = [1]`, `size = 1`, `cf = [0]`,
`cap = 1` (no demand is ever met, so annual realized supply is zero), the total
lifetime supply is `0` while total costs are positive, and the source computes
`lcoh = total_costs / 0` with no check of any kind — under the source's IEEE
arithmetic this yields `+inf`, not an explicit error.  The claim's required
error surfacing does not exist anywhere in the code. -/
theorem c5_division_by_zero_supply_reached :
    total_h2_supply__kg [0] 1 [0] 1 = 0 ∧
    0 < total_costs__usd [1] 1 [0] 1 ∧
    lcoh__usd_per_kg [0] [1] 1 [0] 1 = total_costs__usd [1] 1 [0] 1 / 0 := by
  have hsup : total_h2_supply__kg [0] 1 [0] 1 = 0 := by
    norm_num [total_h2_supply__kg, annual_h2_supply__kg, h2_supply__kg_per_hour,
      h2_production__kg_per_hour, electricity_consumption__kwh_per_hour,
      electrolyzer_size__kw, electrolyzer_efficiency__fraction,
      hydrogen_higher_heating_value__kwh_per_kg,
      h2_storage_charge_and_discharge__kg_per_hour, h2_absolute_storage_level__kg,
      h2_relative_storage_level__kg, bounded_cumsum, bounded_cumsum_go, clip,
      h2_demand_supply_balance_shifted__kg_per_hour, roll_one, roll_minus_one,
      List.rotate, h2_demand_supply_balance__kg_per_hour, h2_storage_lower_bound,
      h2_storage_upper_bound, h2_storage_capacity__kg, h2_storage_level_start__fraction,
      electrolyzer_lifetime__years, min_def, max_def]
  refine ⟨hsup, ?_, ?_⟩
  · norm_num [total_costs__usd, total_electrolyzer_capital_cost__usd,
      electrolyzer_capital_cost__usd_per_kw, electrolyzer_size__kw,
      annual_h2_production_electricity_cost__usd_per_year,
      h2_production_electricity_cost__usd_per_hour,
      electricity_consumption__kwh_per_hour, total_h2_storage_capital_cost__usd,
      h2_storage_capacity__kg, h2_storage_capital_cost__usd_per_kg,
      electrolyzer_lifetime__years]
  · rw [lcoh__usd_per_kg, hsup]

/-- C6: at the input `demand = [0]`, `price = [1]`, `size = 1`, `cf = [0]`,
`cap = 1` the annual demand is `0` and the annual deficit is `0`, so the
source computes the deficit ratio as `-0 / 0` with no check — under the
source's IEEE arithmetic this yields NaN silently; no explicit error is
raised anywhere in the code, contrary to the claim. -/
theorem c6_deficit_ratio_zero_over_zero_reached :
    annual_h2_demand__kg_per_year [0] = 0 ∧
    annual_h2_deficit__kg_per_year [0] 1 [0] 1 = 0 ∧
    annual_h2_deficit_ratio [0] 1 [0] 1 =
      -annual_h2_deficit__kg_per_year [0] 1 [0] 1 / annual_h2_demand__kg_per_year [0] := by
  refine ⟨by norm_num [annual_h2_demand__kg_per_year], ?_, rfl⟩
  norm_num [annual_h2_deficit__kg_per_year, h2_deficit__kg_per_hour,
    h2_production__kg_per_hour, electricity_consumption__kwh_per_hour,
    electrolyzer_size__kw, electrolyzer_efficiency__fraction,
    hydrogen_higher_heating_value__kwh_per_kg,
    h2_storage_charge_and_discharge__kg_per_hour, h2_absolute_storage_level__kg,
    h2_relative_storage_level__kg, bounded_cumsum, bounded_cumsum_go, clip,
    h2_demand_supply_balance_shifted__kg_per_hour, roll_one, roll_minus_one,
    List.rotate, h2_demand_supply_balance__kg_per_hour, h2_storage_lower_bound,
    h2_storage_upper_bound, h2_storage_capacity__kg, h2_storage_level_start__fraction,
    min_def, max_def]

/-- C7: the bounded accumulation is applied to the imbalance series rolled
forward by one hour, and the charge/discharge series is the circular forward
difference of the absolute storage level:
`chargedis[i] = abs[(i+1) mod n] - abs[i]`. -/
theorem c7_shift_and_forward_difference (demand : List ℚ) (size : ℚ) (cf : List ℚ)
    (cap : ℚ) :
    h2_relative_storage_level__kg demand size cf cap =
      bounded_cumsum (roll_one (h2_demand_supply_balance__kg_per_hour demand size cf))
        (h2_storage_lower_bound cap) (h2_storage_upper_bound cap) ∧
    ∀ i, i < (h2_absolute_storage_level__kg demand size cf cap).length →
      (h2_storage_charge_and_discharge__kg_per_hour demand size cf cap).getD i 0 =
        (h2_absolute_storage_level__kg demand size cf cap).getD
          ((i + 1) % (h2_absolute_storage_level__kg demand size cf cap).length) 0
        - (h2_absolute_storage_level__kg demand size cf cap).getD i 0 :=
  ⟨rfl, fun i h => chargedis_getD demand size cf cap i h⟩

theorem c7_witness :
    0 < (h2_absolute_storage_level__kg [1, 2] 1 [1, 1] 1).length ∧
    (h2_storage_charge_and_discharge__kg_per_hour [1, 2] 1 [1, 1] 1).getD 0 0 =
      (h2_absolute_storage_level__kg [1, 2] 1 [1, 1] 1).getD
        ((0 + 1) % (h2_absolute_storage_level__kg [1, 2] 1 [1, 1] 1).length) 0
      - (h2_absolute_storage_level__kg [1, 2] 1 [1, 1] 1).getD 0 0 :=
  ⟨by rw [length_absolute [1, 2] 1 [1, 1] 1 rfl]; norm_num,
   (c7_shift_and_forward_difference [1, 2] 1 [1, 1] 1).2 0
     (by rw [length_absolute [1, 2] 1 [1, 1] 1 rfl]; norm_num)⟩

theorem sum_take_succ_getD (l : List ℚ) (i : ℕ) (h : i < l.length) :
    (l.take (i + 1)).sum = (l.take i).sum + l.getD i 0 := by
  rw [List.getD_eq_getElem _ _ h]
  exact List.sum_take_succ l i h

theorem mem_getD (l : List ℚ) (v : ℚ) (hv : v ∈ l) :
    ∃ i, i < l.length ∧ l.getD i 0 = v := by
  obtain ⟨i, hi, rfl⟩ := List.mem_iff_getElem.1 hv
  exact ⟨i, hi, List.getD_eq_getElem _ _ hi⟩

/-- C9: when production covers demand at every hour and the bounded
accumulation never clamps (its output coincides with the unclamped cumulative
sum), every hourly deficit is zero, so the deficit ratio is `0` and the
penalized LCOH equals the unpenalized LCOH. -/
theorem c9_no_deficit_no_penalty (demand price : List ℚ) (size : ℚ) (cf : List ℚ)
    (cap : ℚ) (hlen : cf.length = demand.length)
    (hprod : ∀ i, i < demand.length →
      demand.getD i 0 ≤ (h2_production__kg_per_hour size cf).getD i 0)
    (hnoclamp : h2_relative_storage_level__kg demand size cf cap =
      cumsum (h2_demand_supply_balance_shifted__kg_per_hour demand size cf)) :
    annual_h2_deficit_ratio demand size cf cap = 0 ∧
    lcoh_with_deficit_penalty__usd_per_kg demand price size cf cap =
      lcoh__usd_per_kg demand price size cf cap := by
  have hbal_len : (h2_demand_supply_balance__kg_per_hour demand size cf).length =
      demand.length := length_balance demand size cf hlen
  have hsh_len : (h2_demand_supply_balance_shifted__kg_per_hour demand size cf).length =
      demand.length := length_shifted demand size cf hlen
  have habs_len : (h2_absolute_storage_level__kg demand size cf cap).length =
      demand.length := length_absolute demand size cf cap hlen
  have hrel_len : (h2_relative_storage_level__kg demand size cf cap).length =
      demand.length := length_relative demand size cf cap hlen
  have hcd_len : (h2_storage_charge_and_discharge__kg_per_hour demand size cf cap).length =
      demand.length := length_chargedis demand size cf cap hlen
  have hprod_len : (h2_production__kg_per_hour size cf).length = demand.length := by
    rw [length_production, hlen]
  -- balance entries and their nonnegativity
  have hbal_getD : ∀ j, j < demand.length →
      (h2_demand_supply_balance__kg_per_hour demand size cf).getD j 0 =
        (h2_production__kg_per_hour size cf).getD j 0 - demand.getD j 0 := by
    intro j hj
    rw [h2_demand_supply_balance__kg_per_hour,
      getD_zipWith_of_lt _ _ _ j (by omega) hj]
  have hbal_nonneg : ∀ j, j < demand.length →
      0 ≤ (h2_demand_supply_balance__kg_per_hour demand size cf).getD j 0 := by
    intro j hj
    rw [hbal_getD j hj]
    have := hprod j hj
    linarith
  have hbal_sum_nonneg : 0 ≤ (h2_demand_supply_balance__kg_per_hour demand size cf).sum := by
    apply List.sum_nonneg
    intro v hv
    obtain ⟨j, hj, rfl⟩ := mem_getD _ v hv
    exact hbal_nonneg j (by omega)
  -- relative level under the no-clamp hypothesis: plain prefix sums of the shifted series
  have hrel_getD : ∀ k, k < demand.length →
      (h2_relative_storage_level__kg demand size cf cap).getD k 0 =
        ((h2_demand_supply_balance_shifted__kg_per_hour demand size cf).take (k + 1)).sum := by
    intro k hk
    rw [hnoclamp, cumsum, cumsum_go_getD _ 0 k (by omega), zero_add]
  -- shifted entries in terms of balance entries
  have hsh_getD : ∀ k, k < demand.length →
      (h2_demand_supply_balance_shifted__kg_per_hour demand size cf).getD k 0 =
        (h2_demand_supply_balance__kg_per_hour demand size cf).getD
          ((k + (demand.length - 1)) % demand.length) 0 := by
    intro k hk
    rw [h2_demand_supply_balance_shifted__kg_per_hour, roll_one,
      getD_rotate _ _ _ (by omega), hbal_len]
  -- absolute level entries
  have habs_getD : ∀ k, k < demand.length →
      (h2_absolute_storage_level__kg demand size cf cap).getD k 0 =
        (h2_relative_storage_level__kg demand size cf cap).getD k 0
          - h2_storage_lower_bound cap := by
    intro k hk
    rw [h2_absolute_storage_level__kg, getD_map_of_lt _ _ k (by omega)]
  -- every hourly deficit is zero
  have hkey : ∀ i, i < demand.length →
      (h2_deficit__kg_per_hour demand size cf cap).getD i 0 = 0 := by
    intro i hi
    have hn1 : 1 ≤ demand.length := by omega
    have hcd_val : (h2_storage_charge_and_discharge__kg_per_hour demand size cf cap).getD i 0 =
        (h2_relative_storage_level__kg demand size cf cap).getD
          ((i + 1) % demand.length) 0
        - (h2_relative_storage_level__kg demand size cf cap).getD i 0 := by
      rw [chargedis_getD demand size cf cap i (by omega), habs_len,
        habs_getD _ (Nat.mod_lt _ (by omega)), habs_getD i hi]
      ring
    have hub : 0 ≤ (h2_demand_supply_balance__kg_per_hour demand size cf).getD i 0
        - (h2_storage_charge_and_discharge__kg_per_hour demand size cf cap).getD i 0 := by
      rcases Nat.lt_or_ge (i + 1) demand.length with hi1 | hi1
      · -- interior hour: the charge/discharge equals the hour's own balance entry
        have hmod : (i + 1) % demand.length = i + 1 := Nat.mod_eq_of_lt hi1
        have hstep : (h2_relative_storage_level__kg demand size cf cap).getD (i + 1) 0 =
            (h2_relative_storage_level__kg demand size cf cap).getD i 0
            + (h2_demand_supply_balance_shifted__kg_per_hour demand size cf).getD (i + 1) 0 := by
          rw [hrel_getD (i + 1) hi1, hrel_getD i hi,
            sum_take_succ_getD _ (i + 1) (by omega)]
        have hsh_val : (h2_demand_supply_balance_shifted__kg_per_hour demand size cf).getD
            (i + 1) 0 = (h2_demand_supply_balance__kg_per_hour demand size cf).getD i 0 := by
          rw [hsh_getD (i + 1) hi1]
          congr 1
          have he : i + 1 + (demand.length - 1) = i + demand.length := by omega
          rw [he, Nat.add_mod_right, Nat.mod_eq_of_lt hi]
        rw [hcd_val, hmod, hstep, hsh_val]
        ring_nf
        simp
      · -- last hour: the charge/discharge wraps to the start
        have hieq : i + 1 = demand.length := by omega
        have hmod : (i + 1) % demand.length = 0 := by
          rw [hieq, Nat.mod_self]
        have hrel0 : (h2_relative_storage_level__kg demand size cf cap).getD 0 0 =
            (h2_demand_supply_balance__kg_per_hour demand size cf).getD i 0 := by
          rw [hrel_getD 0 (by omega), sum_take_succ_getD _ 0 (by omega)]
          simp only [List.take_zero, List.sum_nil, zero_add]
          rw [hsh_getD 0 (by omega)]
          congr 1
          rw [Nat.zero_add, Nat.mod_eq_of_lt (by omega)]
          omega
        have hreli : (h2_relative_storage_level__kg demand size cf cap).getD i 0 =
            (h2_demand_supply_balance__kg_per_hour demand size cf).sum := by
          rw [hrel_getD i hi, hieq, ← hsh_len, List.take_length,
            h2_demand_supply_balance_shifted__kg_per_hour, roll_one,
            (List.rotate_perm _ _).sum_eq]
        rw [hcd_val, hmod, hrel0, hreli]
        have := hbal_sum_nonneg
        linarith
    have hbc : i < (List.zipWith (fun b c => b - c)
        (h2_demand_supply_balance__kg_per_hour demand size cf)
        (h2_storage_charge_and_discharge__kg_per_hour demand size cf cap)).length := by
      rw [List.length_zipWith]
      omega
    rw [h2_deficit__kg_per_hour, getD_map_of_lt _ _ i hbc,
      getD_zipWith_of_lt _ _ _ i (by omega) (by omega)]
    exact min_eq_right hub
  -- the annual deficit is zero, hence the ratio is zero
  have hdef0 : annual_h2_deficit__kg_per_year demand size cf cap = 0 := by
    apply List.sum_eq_zero
    intro v hv
    obtain ⟨j, hj, rfl⟩ := mem_getD _ v hv
    have hj2 : j < demand.length := by
      have := length_deficit demand size cf cap hlen
      omega
    exact hkey j hj2
  have hratio : annual_h2_deficit_ratio demand size cf cap = 0 := by
    rw [annual_h2_deficit_ratio, hdef0]
    simp
  refine ⟨hratio, ?_⟩
  rw [lcoh_with_deficit_penalty__usd_per_kg, hratio]
  ring

theorem c9_witness :
    ([(1 : ℚ), 1].length = [(1 : ℚ), 1].length) ∧
    (annual_h2_deficit_ratio [1, 1] 1 [1, 1] 1 = 0 ∧
      lcoh_with_deficit_penalty__usd_per_kg [1, 1] [1, 1] 1 [1, 1] 1 =
        lcoh__usd_per_kg [1, 1] [1, 1] 1 [1, 1] 1) :=
  ⟨rfl, c9_no_deficit_no_penalty [1, 1] [1, 1] 1 [1, 1] 1 rfl
    (by
      intro i hi
      have hi2 : i < 2 := by simpa using hi
      interval_cases i <;>
        norm_num [h2_production__kg_per_hour, electricity_consumption__kwh_per_hour,
          electrolyzer_size__kw, electrolyzer_efficiency__fraction,
          hydrogen_higher_heating_value__kwh_per_kg])
    (by
      norm_num [h2_relative_storage_level__kg, bounded_cumsum, bounded_cumsum_go, clip,
        cumsum, cumsum_go, h2_demand_supply_balance_shifted__kg_per_hour, roll_one,
        List.rotate, h2_demand_supply_balance__kg_per_hour, h2_production__kg_per_hour,
        electricity_consumption__kwh_per_hour, electrolyzer_size__kw,
        electrolyzer_efficiency__fraction, hydrogen_higher_heating_value__kwh_per_kg,
        h2_storage_lower_bound, h2_storage_upper_bound, h2_storage_capacity__kg,
        h2_storage_level_start__fraction, min_def, max_def])⟩

end HydrogenCostModel
